import Mathlib

/-!
Verification development for the hoedown markdown binding.

The binding's own Rust code (buffer ownership shims, the renderer trait and
its defaults, the wrapper macro, the render entry points) is embedded
directly from the sources under src/.  The wrapped native C library (block
and inline parsing, the stock HTML and table-of-contents renderers, the
smartypants post-processor) is not part of the repository sources, so its
behavior is modelled from the specification; every such definition carries a
doc comment beginning with the words Modelled from the spec.

Bytes are represented as natural numbers below 256; byte strings as lists of
naturals.
-/

set_option maxRecDepth 10000

/-- Convert an ASCII string literal to its byte sequence.  All concrete
inputs used in this development are ASCII, where the Unicode code point of
each character coincides with its UTF-8 byte. -/
def ascii (s : String) : List Nat :=
  s.data.map Char.toNat

/-! ## Byte buffer (src/src/buffer.rs)

A `hoedown_buffer` owns data bytes, a size and a growth unit.  The Rust
`Buffer` wraps a pointer to such a structure together with an ownership
flag.  We model the pointed-to C structure by its observable contents
(data bytes and growth unit) and the Rust wrapper as that structure plus
the `is_owned` flag. -/

/-- The observable contents of a `hoedown_buffer`: its data bytes and its
growth unit. -/
structure HoedownBuffer where
  data : List Nat
  unit : Nat
deriving DecidableEq, Repr

/-- A raw `*const hoedown_buffer` / `*mut hoedown_buffer`: either null or a
pointer to a buffer value. -/
inductive RawBuf where
  | null : RawBuf
  | ptr : HoedownBuffer → RawBuf
deriving DecidableEq, Repr

/-- The Rust `Buffer` wrapper: the underlying `hoedown_buffer` contents plus
the `is_owned` flag recording whether dropping frees the storage. -/
structure Buffer where
  data : List Nat
  unit : Nat
  is_owned : Bool
deriving DecidableEq, Repr

namespace Buffer

/-- `Buffer::new(size)`: freshly allocated owning buffer with the given
growth unit and no contents (src/src/buffer.rs lines 23-28). -/
def new (size : Nat) : Buffer :=
  { data := [], unit := size, is_owned := true }

/-- `Buffer::from_raw(ptr)`: `None` when the pointer is null, otherwise a
non-owning wrapper of the pointed-to buffer (src/src/buffer.rs lines 34-43). -/
def from_raw : RawBuf → Option Buffer
  | RawBuf.null => none
  | RawBuf.ptr hb => some { data := hb.data, unit := hb.unit, is_owned := false }

/-- `Buffer::from_raw_mut(ptr)`: identical null check and non-owning wrap
(src/src/buffer.rs lines 49-58). -/
def from_raw_mut : RawBuf → Option Buffer
  | RawBuf.null => none
  | RawBuf.ptr hb => some { data := hb.data, unit := hb.unit, is_owned := false }

/-- `Buffer::len` (src/src/buffer.rs lines 83-85). -/
def len (b : Buffer) : Nat :=
  b.data.length

/-- `Buffer::is_empty` (src/src/buffer.rs lines 78-80). -/
def is_empty (b : Buffer) : Bool :=
  b.len == 0

/-- `hoedown_buffer_put` via `Buffer::pipe`: append the input buffer's
contents to this one (src/src/buffer.rs lines 93-97).  The C call appends
`input.len()` bytes starting at `input.data_ptr()`, i.e. the input's data. -/
def pipe (self input : Buffer) : Buffer :=
  { self with data := self.data ++ input.data }

/-- `impl Drop for Buffer` (src/src/buffer.rs lines 105-115): the underlying
storage is freed exactly when the wrapper is owning and the growth unit is
nonzero.  The result records whether `hoedown_buffer_free` is called. -/
def dropFrees (b : Buffer) : Bool :=
  b.is_owned && b.unit != 0

/-- `impl Clone for Buffer` (src/src/buffer.rs lines 120-129): create a new
buffer with the same growth unit and pipe this one's contents into it. -/
def clone (b : Buffer) : Buffer :=
  let unit := b.unit
  let buffer := Buffer.new unit
  buffer.pipe b

end Buffer

/-! ## Extension flags (src/src/extensions.rs, src/src/lib.rs lines 36-113)

The `bitflags!` invocation defines named `u32` constants.  Both generations
of the source (`extensions.rs` and the copy embedded in `lib.rs`) define the
same fourteen named bits. -/

/-- The `Extension` bitset: a `u32` of flag bits. -/
structure Extension where
  bits : Nat
deriving DecidableEq, Repr

namespace Extension

def TABLES : Extension := ⟨1 <<< 0⟩
def FENCED_CODE : Extension := ⟨1 <<< 1⟩
def FOOTNOTES : Extension := ⟨1 <<< 2⟩
def AUTOLINK : Extension := ⟨1 <<< 3⟩
def STRIKETHROUGH : Extension := ⟨1 <<< 4⟩
def UNDERLINE : Extension := ⟨1 <<< 5⟩
def HIGHLIGHT : Extension := ⟨1 <<< 6⟩
def QUOTE : Extension := ⟨1 <<< 7⟩
def SUPERSCRIPT : Extension := ⟨1 <<< 8⟩
def MATH : Extension := ⟨1 <<< 9⟩
def NO_INTRA_EMPHASIS : Extension := ⟨1 <<< 11⟩
def SPACE_HEADERS : Extension := ⟨1 <<< 12⟩
def MATH_EXPLICIT : Extension := ⟨1 <<< 13⟩
def DISABLE_INDENTED_CODE : Extension := ⟨1 <<< 14⟩

/-- `Extension::empty()` from the `bitflags!` expansion. -/
def empty : Extension := ⟨0⟩

/-- Bitwise union, `a | b` from the `bitflags!` expansion. -/
def union (a b : Extension) : Extension := ⟨a.bits ||| b.bits⟩

/-- Bitwise intersection, `a & b` from the `bitflags!` expansion. -/
def inter (a b : Extension) : Extension := ⟨a.bits &&& b.bits⟩

/-- Containment test, `a.contains(b)` from the `bitflags!` expansion:
all bits of `b` are present in `a`. -/
def contains (a b : Extension) : Bool :=
  a.bits &&& b.bits == b.bits

/-- `is_empty` from the `bitflags!` expansion. -/
def is_empty (a : Extension) : Bool :=
  a.bits == 0

/-- The named extension constants, in source declaration order
(src/src/extensions.rs lines 1-54). -/
def allFlags : List Extension :=
  [TABLES, FENCED_CODE, FOOTNOTES, AUTOLINK, STRIKETHROUGH, UNDERLINE,
   HIGHLIGHT, QUOTE, SUPERSCRIPT, MATH, NO_INTRA_EMPHASIS, SPACE_HEADERS,
   MATH_EXPLICIT, DISABLE_INDENTED_CODE]

/-- The thirteen features named by the specification's extension list
(spec section 2), stated from the spec's words for comparison with the
source's `allFlags`: tables, fenced code, footnotes, autolink,
strikethrough, underline, highlight, quote, math, no-intra-emphasis,
space-headers, explicit-math, disable-indented-code. -/
def specListedFlags : List Extension :=
  [TABLES, FENCED_CODE, FOOTNOTES, AUTOLINK, STRIKETHROUGH, UNDERLINE,
   HIGHLIGHT, QUOTE, MATH, NO_INTRA_EMPHASIS, SPACE_HEADERS,
   MATH_EXPLICIT, DISABLE_INDENTED_CODE]

/-- Union of a list of flags. -/
def unionAll (l : List Extension) : Extension :=
  l.foldr union empty

end Extension

/-! ## UTF-8 validity (for `Buffer::to_str`, src/src/buffer.rs lines 99-103)

`Buffer::to_str` calls `str::from_utf8` on the buffer's byte slice.
`str::from_utf8` is external to this repository; UTF-8 validity is the
standard notion (RFC 3629): we give a left-to-right validator mirroring the
standard library's table-driven check, and an independent declarative
decomposition predicate, and prove them equivalent. -/

/-- A UTF-8 continuation byte: `0x80..=0xBF`. -/
def contB (c : Nat) : Bool :=
  decide (0x80 ≤ c ∧ c ≤ 0xBF)

/-- Admissible (leading, second) byte pairs of a three-byte UTF-8 sequence,
excluding overlong forms (`0xE0` requires second byte `0xA0..`) and
surrogates (`0xED` caps the second byte at `0x9F`). -/
def utf8ThreeLead (c1 c2 : Nat) : Bool :=
  decide ((c1 = 0xE0 ∧ 0xA0 ≤ c2 ∧ c2 ≤ 0xBF) ∨
          (0xE1 ≤ c1 ∧ c1 ≤ 0xEC ∧ 0x80 ≤ c2 ∧ c2 ≤ 0xBF) ∨
          (c1 = 0xED ∧ 0x80 ≤ c2 ∧ c2 ≤ 0x9F) ∨
          (0xEE ≤ c1 ∧ c1 ≤ 0xEF ∧ 0x80 ≤ c2 ∧ c2 ≤ 0xBF))

/-- Admissible (leading, second) byte pairs of a four-byte UTF-8 sequence,
excluding overlong forms (`0xF0` requires second byte `0x90..`) and code
points beyond `U+10FFFF` (`0xF4` caps the second byte at `0x8F`). -/
def utf8FourLead (c1 c2 : Nat) : Bool :=
  decide ((c1 = 0xF0 ∧ 0x90 ≤ c2 ∧ c2 ≤ 0xBF) ∨
          (0xF1 ≤ c1 ∧ c1 ≤ 0xF3 ∧ 0x80 ≤ c2 ∧ c2 ≤ 0xBF) ∨
          (c1 = 0xF4 ∧ 0x80 ≤ c2 ∧ c2 ≤ 0x8F))

/-- Left-to-right UTF-8 validation of a byte sequence, as performed by
`str::from_utf8`: an ASCII byte stands alone; a two-, three- or four-byte
leading byte must be followed by the admissible continuation bytes; every
other leading byte (a bare continuation byte, `0xC0`/`0xC1`, or a byte above
`0xF4`) is invalid. -/
def utf8Valid : List Nat → Bool
  | [] => true
  | c1 :: t1 =>
    if c1 ≤ 0x7F then utf8Valid t1
    else
      match t1 with
      | [] => false
      | c2 :: t2 =>
        if 0xC2 ≤ c1 ∧ c1 ≤ 0xDF then contB c2 && utf8Valid t2
        else
          match t2 with
          | [] => false
          | c3 :: t3 =>
            if 0xE0 ≤ c1 ∧ c1 ≤ 0xEF then
              utf8ThreeLead c1 c2 && contB c3 && utf8Valid t3
            else
              match t3 with
              | [] => false
              | c4 :: t4 =>
                if 0xF0 ≤ c1 ∧ c1 ≤ 0xF4 then
                  utf8FourLead c1 c2 && contB c3 && contB c4 && utf8Valid t4
                else false

/-- Declarative UTF-8 validity: the byte sequence decomposes into a
concatenation of well-formed scalar-value encodings of one to four bytes. -/
inductive IsUtf8 : List Nat → Prop
  | nil : IsUtf8 []
  | one {c : Nat} {r : List Nat} :
      c ≤ 0x7F → IsUtf8 r → IsUtf8 (c :: r)
  | two {c1 c2 : Nat} {r : List Nat} :
      0xC2 ≤ c1 → c1 ≤ 0xDF → contB c2 = true → IsUtf8 r →
      IsUtf8 (c1 :: c2 :: r)
  | three {c1 c2 c3 : Nat} {r : List Nat} :
      0xE0 ≤ c1 → c1 ≤ 0xEF → utf8ThreeLead c1 c2 = true → contB c3 = true →
      IsUtf8 r → IsUtf8 (c1 :: c2 :: c3 :: r)
  | four {c1 c2 c3 c4 : Nat} {r : List Nat} :
      0xF0 ≤ c1 → c1 ≤ 0xF4 → utf8FourLead c1 c2 = true → contB c3 = true →
      contB c4 = true → IsUtf8 r → IsUtf8 (c1 :: c2 :: c3 :: c4 :: r)

/-- `Buffer::to_str` (src/src/buffer.rs lines 99-103): attempt to view the
buffer's contents as a string.  The call takes `&self`; we return the
resulting value together with the buffer state after the call.  A successful
decode is represented by the byte contents themselves (a `&str` is exactly
the validated bytes). -/
def Buffer.to_str (b : Buffer) : Except Unit (List Nat) × Buffer :=
  (if utf8Valid b.data then Except.ok b.data else Except.error (), b)

/-! ## Callback metadata (src/src/renderer/mod.rs lines 560-592)

Small closed enumerations passed alongside content to the callbacks. -/

/-- Flags that describe a list or list item (`list::List`). -/
structure ListFlags where
  bits : Nat
deriving DecidableEq, Repr

namespace ListFlags

def ORDERED : ListFlags := ⟨1 <<< 0⟩
def BLOCK : ListFlags := ⟨1 <<< 1⟩

end ListFlags

/-- The table alignment or position (`renderer::Table`). -/
inductive Table where
  | Left
  | Right
  | Center
  | Mask
  | Header
deriving DecidableEq, Repr

/-- The type of an autolink candidate (`renderer::AutoLink`). -/
inductive AutoLink where
  | Normal
  | Email
deriving DecidableEq, Repr

/-! ## Default `Render` trait implementations (src/src/renderer/mod.rs lines 178-438)

Each default implementation is a pure function of its buffer arguments (no
default touches the renderer's own state).  Block-level defaults have an
empty body, so the output buffer is returned unchanged; span-level defaults
return `false` and write nothing; the low-level `entity` and `normal_text`
defaults pipe their text argument into the output. -/

namespace RenderDefault

def code_block (output _text _lang : Buffer) : Buffer := output

def quote_block (output _content : Buffer) : Buffer := output

def header (output _content : Buffer) (_level : Int) : Buffer := output

def horizontal_rule (output : Buffer) : Buffer := output

def list (output _content : Buffer) (_flags : ListFlags) : Buffer := output

def list_item (output _content : Buffer) (_flags : ListFlags) : Buffer := output

def paragraph (output _content : Buffer) : Buffer := output

def table (output _content : Buffer) : Buffer := output

def table_header (output _content : Buffer) : Buffer := output

def table_body (output _content : Buffer) : Buffer := output

def table_row (output _content : Buffer) : Buffer := output

def table_cell (output _content : Buffer) (_flags : Table) : Buffer := output

def footnotes (output _content : Buffer) : Buffer := output

def footnote_definition (output _content : Buffer) (_num : Nat) : Buffer := output

def html_block (output _text : Buffer) : Buffer := output

def autolink (output _link : Buffer) (_link_type : AutoLink) : Buffer × Bool :=
  (output, false)

def code_span (output _text : Buffer) : Buffer × Bool := (output, false)

def double_emphasis (output _content : Buffer) : Buffer × Bool := (output, false)

def emphasis (output _content : Buffer) : Buffer × Bool := (output, false)

def underline (output _content : Buffer) : Buffer × Bool := (output, false)

def highlight (output _content : Buffer) : Buffer × Bool := (output, false)

def quote_span (output _content : Buffer) : Buffer × Bool := (output, false)

def image (output _link _title _alt : Buffer) : Buffer × Bool := (output, false)

def line_break (output : Buffer) : Buffer × Bool := (output, false)

def link (output _content _link _title : Buffer) : Buffer × Bool := (output, false)

def triple_emphasis (output _content : Buffer) : Buffer × Bool := (output, false)

def strikethrough (output _content : Buffer) : Buffer × Bool := (output, false)

def superscript (output _content : Buffer) : Buffer × Bool := (output, false)

def footnote_reference (output : Buffer) (_num : Nat) : Buffer × Bool :=
  (output, false)

def math (output _text : Buffer) (_displaymode : Int) : Buffer × Bool :=
  (output, false)

def html_span (output _text : Buffer) : Buffer × Bool := (output, false)

def entity (output text : Buffer) : Buffer := output.pipe text

def normal_text (output text : Buffer) : Buffer := output.pipe text

def before_render (output : Buffer) (_inline_render : Bool) : Buffer := output

def after_render (output : Buffer) (_inline_render : Bool) : Buffer := output

end RenderDefault

/-- Modelled from the spec: the engine's fallback for a span-level callback
(spec 4.3).  The callback writes into the output buffer and reports whether
it consumed the match; when it reports `false`, the original markdown source
bytes for that span are written to the output verbatim instead of the span
being dropped. -/
def spanEmit (cb : Buffer → Buffer × Bool) (source : List Nat) (ob : Buffer) :
    Buffer :=
  let r := cb ob
  if r.2 then r.1 else { r.1 with data := r.1.data ++ source }

/-! ## The `Wrapper` trait and the `wrap!` macro (src/src/renderer/wrapper.rs)

A renderer of state type `σ` is the record of all `Render` callbacks of the
`wrapper.rs` generation (content arguments are `Option<&Buffer>` there).
Every callback takes `&mut self` and `&mut Buffer` arguments; we model them
state-passing: the callback maps the renderer state and the output buffer to
their updated values (span-level callbacks additionally return the handled
flag). -/

@[ext]
structure Renderer (σ : Type) where
  code_block : σ → Buffer → Option Buffer → Option Buffer → σ × Buffer
  quote_block : σ → Buffer → Option Buffer → σ × Buffer
  header : σ → Buffer → Option Buffer → Int → σ × Buffer
  horizontal_rule : σ → Buffer → σ × Buffer
  list : σ → Buffer → Option Buffer → ListFlags → σ × Buffer
  list_item : σ → Buffer → Option Buffer → ListFlags → σ × Buffer
  paragraph : σ → Buffer → Option Buffer → σ × Buffer
  table : σ → Buffer → Option Buffer → σ × Buffer
  table_header : σ → Buffer → Option Buffer → σ × Buffer
  table_body : σ → Buffer → Option Buffer → σ × Buffer
  table_row : σ → Buffer → Option Buffer → σ × Buffer
  table_cell : σ → Buffer → Option Buffer → Table → σ × Buffer
  footnotes : σ → Buffer → Option Buffer → σ × Buffer
  footnote_definition : σ → Buffer → Option Buffer → Nat → σ × Buffer
  html_block : σ → Buffer → Option Buffer → σ × Buffer
  autolink : σ → Buffer → Option Buffer → AutoLink → σ × Buffer × Bool
  code_span : σ → Buffer → Option Buffer → σ × Buffer × Bool
  double_emphasis : σ → Buffer → Option Buffer → σ × Buffer × Bool
  emphasis : σ → Buffer → Option Buffer → σ × Buffer × Bool
  underline : σ → Buffer → Option Buffer → σ × Buffer × Bool
  highlight : σ → Buffer → Option Buffer → σ × Buffer × Bool
  quote_span : σ → Buffer → Option Buffer → σ × Buffer × Bool
  image : σ → Buffer → Option Buffer → Option Buffer → Option Buffer → σ × Buffer × Bool
  line_break : σ → Buffer → σ × Buffer × Bool
  link : σ → Buffer → Option Buffer → Option Buffer → Option Buffer → σ × Buffer × Bool
  triple_emphasis : σ → Buffer → Option Buffer → σ × Buffer × Bool
  strikethrough : σ → Buffer → Option Buffer → σ × Buffer × Bool
  superscript : σ → Buffer → Option Buffer → σ × Buffer × Bool
  footnote_reference : σ → Buffer → Nat → σ × Buffer × Bool
  math : σ → Buffer → Option Buffer → Int → σ × Buffer × Bool
  html_span : σ → Buffer → Option Buffer → σ × Buffer × Bool
  entity : σ → Buffer → Option Buffer → σ × Buffer
  normal_text : σ → Buffer → Option Buffer → σ × Buffer
  before_render : σ → Buffer → Bool → σ × Buffer
  after_render : σ → Buffer → Bool → σ × Buffer

/-- The `base(&mut self) -> &mut Self::Base` accessor of a `Wrapper`
implementor: the wrapper state `τ` contains a base-renderer state `σ`,
accessed by a getter and updated in place by a setter. -/
structure BaseLens (τ σ : Type) where
  get : τ → σ
  set : τ → σ → τ

/-- The identity accessor: the wrapper state is exactly the base state. -/
def BaseLens.idLens (σ : Type) : BaseLens σ σ :=
  { get := fun s => s, set := fun _ s => s }

/-! Each provided method of the `Wrapper` trait delegates its arguments
unchanged to the base renderer through `self.base()` and returns the base
renderer's result (src/src/renderer/wrapper.rs lines 4-183).  Mutation of
the base through `&mut Self::Base` becomes an update of the base component
of the wrapper state. -/

namespace Wrapper

variable {τ σ : Type} (L : BaseLens τ σ) (base : Renderer σ)

def code_block (self : τ) (output : Buffer) (code lang : Option Buffer) :
    τ × Buffer :=
  let r := base.code_block (L.get self) output code lang
  (L.set self r.1, r.2)

def quote_block (self : τ) (ob : Buffer) (content : Option Buffer) :
    τ × Buffer :=
  let r := base.quote_block (L.get self) ob content
  (L.set self r.1, r.2)

def header (self : τ) (ob : Buffer) (content : Option Buffer) (level : Int) :
    τ × Buffer :=
  let r := base.header (L.get self) ob content level
  (L.set self r.1, r.2)

def horizontal_rule (self : τ) (ob : Buffer) : τ × Buffer :=
  let r := base.horizontal_rule (L.get self) ob
  (L.set self r.1, r.2)

def list (self : τ) (ob : Buffer) (content : Option Buffer)
    (flags : ListFlags) : τ × Buffer :=
  let r := base.list (L.get self) ob content flags
  (L.set self r.1, r.2)

def list_item (self : τ) (ob : Buffer) (content : Option Buffer)
    (flags : ListFlags) : τ × Buffer :=
  let r := base.list_item (L.get self) ob content flags
  (L.set self r.1, r.2)

def paragraph (self : τ) (ob : Buffer) (content : Option Buffer) :
    τ × Buffer :=
  let r := base.paragraph (L.get self) ob content
  (L.set self r.1, r.2)

def table (self : τ) (ob : Buffer) (content : Option Buffer) : τ × Buffer :=
  let r := base.table (L.get self) ob content
  (L.set self r.1, r.2)

def table_header (self : τ) (ob : Buffer) (content : Option Buffer) :
    τ × Buffer :=
  let r := base.table_header (L.get self) ob content
  (L.set self r.1, r.2)

def table_body (self : τ) (ob : Buffer) (content : Option Buffer) :
    τ × Buffer :=
  let r := base.table_body (L.get self) ob content
  (L.set self r.1, r.2)

def table_row (self : τ) (ob : Buffer) (content : Option Buffer) :
    τ × Buffer :=
  let r := base.table_row (L.get self) ob content
  (L.set self r.1, r.2)

def table_cell (self : τ) (ob : Buffer) (content : Option Buffer)
    (flags : Table) : τ × Buffer :=
  let r := base.table_cell (L.get self) ob content flags
  (L.set self r.1, r.2)

def footnotes (self : τ) (ob : Buffer) (content : Option Buffer) :
    τ × Buffer :=
  let r := base.footnotes (L.get self) ob content
  (L.set self r.1, r.2)

def footnote_definition (self : τ) (ob : Buffer) (content : Option Buffer)
    (num : Nat) : τ × Buffer :=
  let r := base.footnote_definition (L.get self) ob content num
  (L.set self r.1, r.2)

def html_block (self : τ) (ob : Buffer) (text : Option Buffer) : τ × Buffer :=
  let r := base.html_block (L.get self) ob text
  (L.set self r.1, r.2)

def autolink (self : τ) (ob : Buffer) (link : Option Buffer) (ty : AutoLink) :
    τ × Buffer × Bool :=
  let r := base.autolink (L.get self) ob link ty
  (L.set self r.1, r.2)

def code_span (self : τ) (ob : Buffer) (text : Option Buffer) :
    τ × Buffer × Bool :=
  let r := base.code_span (L.get self) ob text
  (L.set self r.1, r.2)

def double_emphasis (self : τ) (ob : Buffer) (content : Option Buffer) :
    τ × Buffer × Bool :=
  let r := base.double_emphasis (L.get self) ob content
  (L.set self r.1, r.2)

def emphasis (self : τ) (ob : Buffer) (content : Option Buffer) :
    τ × Buffer × Bool :=
  let r := base.emphasis (L.get self) ob content
  (L.set self r.1, r.2)

def underline (self : τ) (ob : Buffer) (content : Option Buffer) :
    τ × Buffer × Bool :=
  let r := base.underline (L.get self) ob content
  (L.set self r.1, r.2)

def highlight (self : τ) (ob : Buffer) (content : Option Buffer) :
    τ × Buffer × Bool :=
  let r := base.highlight (L.get self) ob content
  (L.set self r.1, r.2)

def quote_span (self : τ) (ob : Buffer) (content : Option Buffer) :
    τ × Buffer × Bool :=
  let r := base.quote_span (L.get self) ob content
  (L.set self r.1, r.2)

def image (self : τ) (ob : Buffer) (link title alt : Option Buffer) :
    τ × Buffer × Bool :=
  let r := base.image (L.get self) ob link title alt
  (L.set self r.1, r.2)

def line_break (self : τ) (ob : Buffer) : τ × Buffer × Bool :=
  let r := base.line_break (L.get self) ob
  (L.set self r.1, r.2)

def link (self : τ) (ob : Buffer) (content lnk title : Option Buffer) :
    τ × Buffer × Bool :=
  let r := base.link (L.get self) ob content lnk title
  (L.set self r.1, r.2)

def triple_emphasis (self : τ) (ob : Buffer) (content : Option Buffer) :
    τ × Buffer × Bool :=
  let r := base.triple_emphasis (L.get self) ob content
  (L.set self r.1, r.2)

def strikethrough (self : τ) (ob : Buffer) (content : Option Buffer) :
    τ × Buffer × Bool :=
  let r := base.strikethrough (L.get self) ob content
  (L.set self r.1, r.2)

def superscript (self : τ) (ob : Buffer) (content : Option Buffer) :
    τ × Buffer × Bool :=
  let r := base.superscript (L.get self) ob content
  (L.set self r.1, r.2)

def footnote_reference (self : τ) (ob : Buffer) (num : Nat) :
    τ × Buffer × Bool :=
  let r := base.footnote_reference (L.get self) ob num
  (L.set self r.1, r.2)

def math (self : τ) (ob : Buffer) (text : Option Buffer)
    (displaymode : Int) : τ × Buffer × Bool :=
  let r := base.math (L.get self) ob text displaymode
  (L.set self r.1, r.2)

def html_span (self : τ) (ob : Buffer) (text : Option Buffer) :
    τ × Buffer × Bool :=
  let r := base.html_span (L.get self) ob text
  (L.set self r.1, r.2)

def entity (self : τ) (ob : Buffer) (text : Option Buffer) : τ × Buffer :=
  let r := base.entity (L.get self) ob text
  (L.set self r.1, r.2)

def normal_text (self : τ) (ob : Buffer) (text : Option Buffer) :
    τ × Buffer :=
  let r := base.normal_text (L.get self) ob text
  (L.set self r.1, r.2)

def before_render (self : τ) (output : Buffer) (inline_render : Bool) :
    τ × Buffer :=
  let r := base.before_render (L.get self) output inline_render
  (L.set self r.1, r.2)

def after_render (self : τ) (output : Buffer) (inline_render : Bool) :
    τ × Buffer :=
  let r := base.after_render (L.get self) output inline_render
  (L.set self r.1, r.2)

end Wrapper

/-- The `Render` implementation generated by the `wrap!` macro
(src/src/renderer/wrapper.rs lines 185-338): every callback forwards to the
corresponding `Wrapper` trait method with its arguments unchanged. -/
def wrapRender {τ σ : Type} (L : BaseLens τ σ) (base : Renderer σ) :
    Renderer τ where
  code_block := fun self output text lang =>
    Wrapper.code_block L base self output text lang
  quote_block := fun self output content =>
    Wrapper.quote_block L base self output content
  header := fun self output content level =>
    Wrapper.header L base self output content level
  horizontal_rule := fun self output =>
    Wrapper.horizontal_rule L base self output
  list := fun self output content flags =>
    Wrapper.list L base self output content flags
  list_item := fun self output content flags =>
    Wrapper.list_item L base self output content flags
  paragraph := fun self output content =>
    Wrapper.paragraph L base self output content
  table := fun self output content =>
    Wrapper.table L base self output content
  table_header := fun self output content =>
    Wrapper.table_header L base self output content
  table_body := fun self output content =>
    Wrapper.table_body L base self output content
  table_row := fun self output content =>
    Wrapper.table_row L base self output content
  table_cell := fun self output content flags =>
    Wrapper.table_cell L base self output content flags
  footnotes := fun self output content =>
    Wrapper.footnotes L base self output content
  footnote_definition := fun self output content num =>
    Wrapper.footnote_definition L base self output content num
  html_block := fun self output text =>
    Wrapper.html_block L base self output text
  autolink := fun self output link link_type =>
    Wrapper.autolink L base self output link link_type
  code_span := fun self output text =>
    Wrapper.code_span L base self output text
  double_emphasis := fun self output content =>
    Wrapper.double_emphasis L base self output content
  emphasis := fun self output content =>
    Wrapper.emphasis L base self output content
  underline := fun self output content =>
    Wrapper.underline L base self output content
  highlight := fun self output content =>
    Wrapper.highlight L base self output content
  quote_span := fun self output content =>
    Wrapper.quote_span L base self output content
  image := fun self output link title alt =>
    Wrapper.image L base self output link title alt
  line_break := fun self output =>
    Wrapper.line_break L base self output
  link := fun self output content lnk title =>
    Wrapper.link L base self output content lnk title
  triple_emphasis := fun self output content =>
    Wrapper.triple_emphasis L base self output content
  strikethrough := fun self output content =>
    Wrapper.strikethrough L base self output content
  superscript := fun self output content =>
    Wrapper.superscript L base self output content
  footnote_reference := fun self output num =>
    Wrapper.footnote_reference L base self output num
  math := fun self output text displaymode =>
    Wrapper.math L base self output text displaymode
  html_span := fun self output text =>
    Wrapper.html_span L base self output text
  entity := fun self output text =>
    Wrapper.entity L base self output text
  normal_text := fun self output text =>
    Wrapper.normal_text L base self output text
  before_render := fun self output inline_render =>
    Wrapper.before_render L base self output inline_render
  after_render := fun self output inline_render =>
    Wrapper.after_render L base self output inline_render

/-! ## The native engine, modelled from the spec

The block/inline parser and the stock HTML and table-of-contents renderers
live in the wrapped C library, which is not part of the repository sources.
The definitions below are modelled from the specification (sections 4.3-4.6)
and cover the grammar fragment exercised by the verified scenarios:
paragraphs, ATX headers, emphasis runs, escaped punctuation and normal-text
runs.  Renderer callbacks are modelled as state-passing functions that
return the bytes they append to the output. -/

/-- A renderer for the modelled engine: one state-passing callback per
construct of the modelled fragment.  Span-level callbacks return `none` to
report the match as not handled, triggering the engine's verbatim
source-text fallback. -/
structure MdRenderer (σ : Type) where
  doc_header : σ → Bool → σ × List Nat
  doc_footer : σ → Bool → σ × List Nat
  paragraph : σ → List Nat → σ × List Nat
  header : σ → List Nat → Nat → σ × List Nat
  emphasis : σ → List Nat → σ × Option (List Nat)
  double_emphasis : σ → List Nat → σ × Option (List Nat)
  triple_emphasis : σ → List Nat → σ × Option (List Nat)
  normal_text : σ → List Nat → σ × List Nat

/-- ASCII whitespace test used by the scanners. -/
def isSpaceB (c : Nat) : Bool :=
  decide (c = 32 ∨ c = 9 ∨ c = 10 ∨ c = 13 ∨ c = 11 ∨ c = 12)

/-- ASCII punctuation test used by the scanners. -/
def isPunctB (c : Nat) : Bool :=
  decide ((33 ≤ c ∧ c ≤ 47) ∨ (58 ≤ c ∧ c ≤ 64) ∨ (91 ≤ c ∧ c ≤ 96) ∨
          (123 ≤ c ∧ c ≤ 126))

/-- Length of the leading run of byte `c`. -/
def runLen (c : Nat) : List Nat → Nat
  | [] => 0
  | x :: xs => if x == c then runLen c xs + 1 else 0

/-- Modelled from the spec: find the start of the next closing delimiter
run, a maximal run of exactly `n` copies of `c` (spec 4.3: run length must
match to close).  Runs of a different length are skipped whole.  The fuel
argument bounds the scan; `n` copies of `c`; returns the offset. -/
def findCloserF : Nat → Nat → Nat → List Nat → Option Nat
  | 0, _, _, _ => none
  | fuel + 1, c, n, l =>
    match l with
    | [] => none
    | x :: xs =>
      if x == c then
        let k := runLen c (x :: xs)
        if k == n then some 0
        else (findCloserF fuel c n ((x :: xs).drop k)).map (· + k)
      else (findCloserF fuel c n xs).map (· + 1)

/-- Flush the pending normal-text run through the `normal_text` callback
(spec 4.3: literal bytes are batched into runs between recognized
constructs). -/
def flushText {σ : Type} (r : MdRenderer σ) (s : σ) (pending out : List Nat) :
    σ × List Nat :=
  if pending.isEmpty then (s, out)
  else
    let t := r.normal_text s pending
    (t.1, out ++ t.2)

/-- Select the emphasis callback for a delimiter-run length (spec 4.3:
3+ run gives triple emphasis, 2 double, 1 single). -/
def emphCb {σ : Type} (r : MdRenderer σ) (k : Nat) :
    σ → List Nat → σ × Option (List Nat) :=
  if k == 1 then r.emphasis
  else if k == 2 then r.double_emphasis
  else r.triple_emphasis

/-- Modelled from the spec: the inline (span) scanner over the modelled
fragment (spec 4.3).  Recognizes, left to right: escaped ASCII punctuation
(emitted as the literal character), emphasis delimiter runs of `_` or `*`
(resolved by run counting, with the content inline-scanned recursively, and
with the engine's verbatim source fallback when the callback reports the
span unhandled), and batches everything else into normal-text runs. -/
def inlineScanF {σ : Type} (r : MdRenderer σ) :
    Nat → σ → List Nat → List Nat → List Nat → σ × List Nat
  | 0, s, rest, pending, out => flushText r s (pending ++ rest) out
  | fuel + 1, s, input, pending, out =>
    match input with
    | [] => flushText r s pending out
    | c :: rest =>
      if c == 92 then
        match rest with
        | p :: rest2 =>
          if isPunctB p then inlineScanF r fuel s rest2 (pending ++ [p]) out
          else inlineScanF r fuel s rest (pending ++ [c]) out
        | [] => flushText r s (pending ++ [c]) out
      else if c == 95 || c == 42 then
        let k := runLen c (c :: rest)
        let after := (c :: rest).drop k
        let literal := fun (_ : Unit) =>
          inlineScanF r fuel s after (pending ++ List.replicate k c) out
        if k > 3 then literal ()
        else match after.head? with
        | none => literal ()
        | some h =>
          if isSpaceB h then literal ()
          else match findCloserF after.length c k after with
          | none => literal ()
          | some 0 => literal ()
          | some i =>
            let content := after.take i
            let f1 := flushText r s pending out
            let inner := inlineScanF r fuel f1.1 content [] []
            let res := emphCb r k inner.1 inner.2
            match res.2 with
            | some bytes =>
              inlineScanF r fuel res.1 (after.drop (i + k)) [] (f1.2 ++ bytes)
            | none =>
              inlineScanF r fuel res.1 (after.drop (i + k)) []
                (f1.2 ++ (List.replicate k c ++ content ++ List.replicate k c))
      else inlineScanF r fuel s rest (pending ++ [c]) out

/-- Run the inline scanner over an isolated span of inline content. -/
def inlineRender {σ : Type} (r : MdRenderer σ) (s : σ) (input : List Nat) :
    σ × List Nat :=
  inlineScanF r (input.length + 1) s input [] []

/-- Split a byte sequence into lines at LF bytes. -/
def splitLinesAux : List Nat → List Nat → List (List Nat)
  | acc, [] => [acc.reverse]
  | acc, c :: rest =>
    if c == 10 then acc.reverse :: splitLinesAux [] rest
    else splitLinesAux (c :: acc) rest

/-- Split a byte sequence into lines at LF bytes. -/
def splitLines (l : List Nat) : List (List Nat) :=
  splitLinesAux [] l

/-- A blank line: only spaces and tabs (spec 4.4: block boundaries are
identified by blank lines). -/
def isBlankLine (l : List Nat) : Bool :=
  l.all fun c => c == 32 || c == 9

/-- Group lines into blocks separated by blank lines. -/
def groupBlocksAux : List (List Nat) → List (List Nat) → List (List (List Nat))
  | acc, [] => if acc.isEmpty then [] else [acc.reverse]
  | acc, l :: ls =>
    if isBlankLine l then
      if acc.isEmpty then groupBlocksAux [] ls
      else acc.reverse :: groupBlocksAux [] ls
    else groupBlocksAux (l :: acc) ls

/-- Group lines into blocks separated by blank lines. -/
def groupBlocks (ls : List (List Nat)) : List (List (List Nat)) :=
  groupBlocksAux [] ls

/-- Drop trailing bytes satisfying `p`. -/
def dropWhileR (p : Nat → Bool) (l : List Nat) : List Nat :=
  (l.reverse.dropWhile p).reverse

/-- The text of an ATX header after the marker run: leading spaces and any
trailing spaces and closing hash run are stripped. -/
def headerText (l : List Nat) : List Nat :=
  dropWhileR (fun c => c == 32)
    (dropWhileR (fun c => c == 35)
      (dropWhileR (fun c => c == 32) (l.dropWhile fun c => c == 32)))

/-- Modelled from the spec: recognize an ATX header line, a run of one to
six hash marks followed by the header text (spec 4.4). -/
def parseATX (line : List Nat) : Option (Nat × List Nat) :=
  let n := (line.takeWhile fun c => c == 35).length
  if 1 ≤ n ∧ n ≤ 6 then some (n, headerText (line.drop n))
  else none

/-- Join block lines back with LF separators. -/
def joinLines : List (List Nat) → List Nat
  | [] => []
  | [l] => l
  | l :: ls => l ++ 10 :: joinLines ls

/-- Render one block: a single ATX header line fires the header callback on
its inline-scanned text; any other block is a paragraph whose inline-scanned
content is passed to the paragraph callback (spec 4.4). -/
def renderBlock {σ : Type} (r : MdRenderer σ) (s : σ)
    (block : List (List Nat)) : σ × List Nat :=
  match block with
  | [line] =>
    match parseATX line with
    | some (level, raw) =>
      let inner := inlineRender r s raw
      r.header inner.1 inner.2 level
    | none =>
      let inner := inlineRender r s line
      r.paragraph inner.1 inner.2
  | lines =>
    let inner := inlineRender r s (joinLines lines)
    r.paragraph inner.1 inner.2

/-- Modelled from the spec: the document driver for a full-document render
(spec 4.5): `before_render`, then the blocks in order, then `after_render`,
with the inline-render flag false.  The extension set and maximum nesting
are threaded but unused by the modelled fragment (no extension-gated or
nested constructs occur in it). -/
def documentRender {σ : Type} (r : MdRenderer σ) (_exts : Extension)
    (_max_nesting : Nat) (s : σ) (input : List Nat) : σ × List Nat :=
  let h := r.doc_header s false
  let body := (groupBlocks (splitLines input)).foldl
    (fun acc b =>
      let rb := renderBlock r acc.1 b
      (rb.1, acc.2 ++ rb.2))
    (h.1, h.2)
  let f := r.doc_footer body.1 false
  (f.1, body.2 ++ f.2)

/-- Modelled from the spec: the inline render entry point skips block-level
scanning entirely and treats the whole input as a single span of inline
content, with the inline-render flag true (spec 4.5). -/
def documentRenderInline {σ : Type} (r : MdRenderer σ) (_exts : Extension)
    (_max_nesting : Nat) (s : σ) (input : List Nat) : σ × List Nat :=
  let h := r.doc_header s true
  let i := inlineRender r h.1 input
  let f := r.doc_footer i.1 true
  (f.1, h.2 ++ i.2 ++ f.2)

/-- Decimal digits of a natural number as ASCII bytes (fuel-bounded). -/
def natDigitsAux : Nat → Nat → List Nat
  | 0, _ => []
  | fuel + 1, n =>
    if n < 10 then [48 + n]
    else natDigitsAux fuel (n / 10) ++ [48 + n % 10]

/-- Decimal digits of a natural number as ASCII bytes. -/
def natDigits (n : Nat) : List Nat :=
  natDigitsAux (n + 1) n

/-- HTML escaping of one text byte: the five HTML-unsafe characters are
replaced by their entities (spec 4.6). -/
def htmlEscapeByte (c : Nat) : List Nat :=
  if c == 60 then ascii ("&lt;")
  else if c == 62 then ascii ("&gt;")
  else if c == 38 then ascii ("&amp;")
  else if c == 34 then ascii ("&quot;")
  else if c == 39 then ascii ("&#39;")
  else [c]

/-- HTML escaping of a text run. -/
def htmlEscape (l : List Nat) : List Nat :=
  (l.map htmlEscapeByte).flatten

/-- Modelled from the spec: the stock HTML renderer with empty flags
(spec 4.6), over the modelled fragment.  Paragraphs are wrapped in
`<p>...</p>` with a trailing newline; emphasis in `<em>`, double emphasis in
`<strong>`, triple in `<strong><em>`; normal text is HTML-escaped. -/
def htmlRenderer : MdRenderer Unit where
  doc_header := fun s _ => (s, [])
  doc_footer := fun s _ => (s, [])
  paragraph := fun s content =>
    (s, ascii ("<p>") ++ content ++ ascii ("</p>\n"))
  header := fun s content level =>
    (s, ascii ("<h") ++ natDigits level ++ ascii (">") ++ content ++
        ascii ("</h") ++ natDigits level ++ ascii (">\n"))
  emphasis := fun s content =>
    (s, some (ascii ("<em>") ++ content ++ ascii ("</em>")))
  double_emphasis := fun s content =>
    (s, some (ascii ("<strong>") ++ content ++ ascii ("</strong>")))
  triple_emphasis := fun s content =>
    (s, some (ascii ("<strong><em>") ++ content ++ ascii ("</em></strong>")))
  normal_text := fun s t => (s, htmlEscape t)

/-- The table-of-contents renderer's persistent state: the zero-based header
counter and the currently open list depth (spec 4.6). -/
structure TocState where
  headerCount : Nat
  currentLevel : Nat
deriving DecidableEq, Repr

/-- Modelled from the spec: the table-of-contents renderer (spec 4.6 and the
TOC state machine).  Only headers up to the configured nesting level
produce output: a level increase opens that many nested `<ul><li>` pairs, a
decrease closes the corresponding number of levels, an equal level closes
and reopens an `<li>`; each emitted entry links to `#toc_N` with `N` drawn
from the zero-based counter incremented once per emitted header.
`after_render` closes all remaining open tags.  All other constructs emit
nothing (their callbacks are not registered in the TOC renderer); normal
text passes through verbatim. -/
def tocRenderer (nestingLevel : Nat) : MdRenderer TocState where
  doc_header := fun s _ => (s, [])
  doc_footer := fun s _ =>
    ({ s with currentLevel := 0 },
     (List.replicate s.currentLevel (ascii ("</li>\n</ul>\n"))).flatten)
  paragraph := fun s _ => (s, [])
  header := fun s content level =>
    if level ≤ nestingLevel then
      let transition :=
        if s.currentLevel < level then
          (List.replicate (level - s.currentLevel) (ascii ("<ul>\n<li>\n"))).flatten
        else if level < s.currentLevel then
          ascii ("</li>\n") ++
            (List.replicate (s.currentLevel - level) (ascii ("</ul>\n</li>\n"))).flatten ++
            ascii ("<li>\n")
        else ascii ("</li>\n<li>\n")
      ({ headerCount := s.headerCount + 1, currentLevel := level },
       transition ++ ascii ("<a href=\"#toc_") ++ natDigits s.headerCount ++
         ascii ("\">") ++ content ++ ascii ("</a>\n"))
    else (s, [])
  emphasis := fun s _ => (s, none)
  double_emphasis := fun s _ => (s, none)
  triple_emphasis := fun s _ => (s, none)
  normal_text := fun s t => (s, t)

/-! ## Smartypants, modelled from the spec

`renderer::html::smartypants` (src/src/renderer/html.rs lines 17-29) calls
`hoedown_html_smartypants`, which lives in the wrapped C library.  Modelled
from the spec (section 4.6): a single-pass substitution of straight quotes
(contextually, tracking an open/close state per quote character against
word boundaries), double and triple dashes, and ellipses, with the entity
spellings pinned by the test suite (`&rsquo;`, `&lsquo;`, `&ldquo;`,
`&rdquo;`, `&ndash;`, `&mdash;`, `&hellip;`). -/

/-- A word boundary for smartypants quoting decisions: the start or end of
the text, whitespace, or punctuation. -/
def wordBoundary (c : Nat) : Bool :=
  c == 0 || isSpaceB c || isPunctB c

/-- One contextual quote decision: a quote character closes when its kind is
open and the following character is a boundary, opens when its kind is
closed and the preceding character is a boundary, and is emitted literally
otherwise.  Returns the new open state and the emitted entity. -/
def smartQuote (isOpen : Bool) (prev next : Nat) (openEnt closeEnt : List Nat) :
    Option (Bool × List Nat) :=
  if isOpen && !(wordBoundary next) then none
  else if !isOpen && !(wordBoundary prev) then none
  else some (!isOpen, if isOpen then closeEnt else openEnt)

/-- Lowercased ASCII byte. -/
def lowerB (c : Nat) : Nat :=
  if 65 ≤ c ∧ c ≤ 90 then c + 32 else c

/-- Modelled from the spec: the smartypants scanning loop.  State: the
previous original byte, the single-quote and double-quote open flags.  One
pass, left to right; substituted output is never rescanned. -/
def smartypantsF : Nat → Nat → Bool → Bool → List Nat → List Nat → List Nat
  | 0, _, _, _, rest, out => out ++ rest
  | fuel + 1, prev, inS, inD, input, out =>
    match input with
    | [] => out
    | c :: rest =>
      if c == 34 then
        match smartQuote inD prev (rest.headD 0) (ascii ("&ldquo;"))
            (ascii ("&rdquo;")) with
        | some r => smartypantsF fuel c inS r.1 rest (out ++ r.2)
        | none => smartypantsF fuel c inS inD rest (out ++ [c])
      else if c == 39 then
        match rest with
        | h1 :: rest2 =>
          if (lowerB h1 == 115 || lowerB h1 == 116 || lowerB h1 == 109 ||
              lowerB h1 == 100) && wordBoundary (rest2.headD 0) then
            smartypantsF fuel c inS inD rest (out ++ ascii ("&rsquo;"))
          else
            match smartQuote inS prev h1 (ascii ("&lsquo;"))
                (ascii ("&rsquo;")) with
            | some r => smartypantsF fuel c r.1 inD rest (out ++ r.2)
            | none => smartypantsF fuel c inS inD rest (out ++ [c])
        | [] =>
          match smartQuote inS prev 0 (ascii ("&lsquo;")) (ascii ("&rsquo;")) with
          | some r => smartypantsF fuel c r.1 inD [] (out ++ r.2)
          | none => smartypantsF fuel c inS inD [] (out ++ [c])
      else if c == 45 then
        match rest with
        | 45 :: 45 :: rest3 =>
          smartypantsF fuel c inS inD rest3 (out ++ ascii ("&mdash;"))
        | 45 :: rest2 =>
          smartypantsF fuel c inS inD rest2 (out ++ ascii ("&ndash;"))
        | _ => smartypantsF fuel c inS inD rest (out ++ [c])
      else if c == 46 then
        match rest with
        | 46 :: 46 :: rest3 =>
          smartypantsF fuel c inS inD rest3 (out ++ ascii ("&hellip;"))
        | _ => smartypantsF fuel c inS inD rest (out ++ [c])
      else smartypantsF fuel c inS inD rest (out ++ [c])

/-- The bytes produced by one smartypants pass over the given content. -/
def smartypantsBytes (content : List Nat) : List Nat :=
  smartypantsF (content.length + 1) 0 false false content []

/-- `renderer::html::smartypants` (src/src/renderer/html.rs lines 20-29):
performs smartypants processing of the content buffer, appending the result
to the output buffer (the C call appends; behavior modelled from the
spec). -/
def smartypants (content : Buffer) (output : Buffer) : Buffer :=
  { output with data := output.data ++ smartypantsBytes content.data }

/-! ## The render entry points (src/src/lib.rs, src/src/markdown.rs,
src/src/renderer/mod.rs lines 87-114, src/src/document.rs)

Both generations of the entry points build a `Document` from the renderer,
the document's extension set and maximum nesting, and call the native
`hoedown_document_render` / `hoedown_document_render_inline`, which append
the rendered bytes to the caller-supplied output buffer (appending modelled
from the spec, section 4.5).  For the frame claim the native render pass
with a fixed renderer is abstracted as a pair of functions from (extensions,
max nesting, input bytes) to produced bytes. -/

/-- The behavior of a converted `hoedown_renderer` under the native engine:
the bytes produced by a full-document and by an inline render pass, as
functions of the document's extension set, maximum nesting and input
bytes. -/
structure NativeRenderer where
  fullPass : Extension → Nat → List Nat → List Nat
  inlinePass : Extension → Nat → List Nat → List Nat

/-- `Document` (src/src/document.rs lines 16-36): pairs the renderer with
the extension set and maximum nesting depth. -/
structure Document where
  renderer : NativeRenderer
  extensions : Extension
  max_nesting : Nat

/-- `Document::new` (src/src/document.rs lines 24-36). -/
def Document.new (renderer : NativeRenderer) (extensions : Extension)
    (max_nesting : Nat) : Document :=
  { renderer := renderer, extensions := extensions, max_nesting := max_nesting }

/-- `Document::render` (src/src/document.rs lines 38-48): calls
`hoedown_document_render`, which appends the rendered bytes of the input to
the provided output buffer (appending modelled from the spec, section 4.5). -/
def Document.render (doc : Document) (output : Buffer) (input : List Nat) :
    Buffer :=
  { output with
    data := output.data ++
      doc.renderer.fullPass doc.extensions doc.max_nesting input }

/-- `Document::render_inline` (src/src/document.rs lines 50-60): calls
`hoedown_document_render_inline`, which appends the inline-rendered bytes of
the input to the provided output buffer (appending modelled from the spec,
section 4.5). -/
def Document.render_inline (doc : Document) (output : Buffer)
    (input : List Nat) : Buffer :=
  { output with
    data := output.data ++
      doc.renderer.inlinePass doc.extensions doc.max_nesting input }

/-- `Markdown` (src/src/lib.rs lines 116-120, src/src/markdown.rs lines
9-13): a renderer-agnostic parse request pairing the content buffer with the
extension set and maximum nesting value. -/
structure Markdown where
  contents : Buffer
  extensions : Extension
  max_nesting : Nat
deriving DecidableEq, Repr

/-- `Markdown::new` from a byte source (src/src/lib.rs lines 131-142): the
contents are read into a fresh buffer with growth unit 64; extensions default
to empty and maximum nesting to 16. -/
def Markdown.new (bytes : List Nat) : Markdown :=
  { contents := { data := bytes, unit := 64, is_owned := true },
    extensions := Extension.empty,
    max_nesting := 16 }

/-- `Markdown::render_into_buffer` (src/src/lib.rs lines 165-171,
src/src/markdown.rs lines 52-58): convert the renderer, build a `Document`
from the document's own extensions and maximum nesting, and render the
contents into the given output buffer.  The method takes `&self`; the pair
returned is (document after the call, output buffer after the call). -/
def Markdown.render_into_buffer (md : Markdown) (renderer : NativeRenderer)
    (output : Buffer) : Markdown × Buffer :=
  let doc := Document.new renderer md.extensions md.max_nesting
  (md, doc.render output md.contents.data)

/-- `Render::render_to` (src/src/renderer/mod.rs lines 95-100): identical
render pass driven from the renderer side. -/
def Render.render_to (renderer : NativeRenderer) (input : Markdown)
    (output : Buffer) : Markdown × Buffer :=
  let doc := Document.new renderer input.extensions input.max_nesting
  (input, doc.render output input.contents.data)

/-- `Markdown::render_inline_into_buffer` (src/src/lib.rs lines 189-194). -/
def Markdown.render_inline_into_buffer (md : Markdown)
    (renderer : NativeRenderer) (output : Buffer) : Markdown × Buffer :=
  let doc := Document.new renderer md.extensions md.max_nesting
  (md, doc.render_inline output md.contents.data)

/-- `Render::render_inline_to` (src/src/renderer/mod.rs lines 110-114). -/
def Render.render_inline_to (renderer : NativeRenderer) (input : Markdown)
    (output : Buffer) : Markdown × Buffer :=
  let doc := Document.new renderer input.extensions input.max_nesting
  (input, doc.render_inline output input.contents.data)

/-! ## Helper lemmas -/

/-- A byte sequence accepted by the left-to-right validator decomposes into
well-formed UTF-8 sequences. -/
theorem isUtf8_of_utf8Valid_aux :
    ∀ (n : Nat) (l : List Nat), l.length ≤ n → utf8Valid l = true → IsUtf8 l := by
  intro n
  induction n with
  | zero =>
    intro l hl _
    have h0 : l = [] := List.length_eq_zero.mp (Nat.le_zero.mp hl)
    subst h0
    exact IsUtf8.nil
  | succ n ih =>
    intro l hl hv
    rcases l with _ | ⟨c1, t1⟩
    · exact IsUtf8.nil
    · rw [utf8Valid.eq_def] at hv
      have hlen1 : t1.length ≤ n := by
        simp only [List.length_cons] at hl
        omega
      by_cases h1 : c1 ≤ 0x7F
      · simp only [if_pos h1] at hv
        exact IsUtf8.one h1 (ih t1 hlen1 hv)
      · simp only [if_neg h1] at hv
        rcases t1 with _ | ⟨c2, t2⟩
        · simp at hv
        · by_cases h2 : 0xC2 ≤ c1 ∧ c1 ≤ 0xDF
          · simp only [if_pos h2] at hv
            rw [Bool.and_eq_true] at hv
            have hlen2 : t2.length ≤ n := by
              simp only [List.length_cons] at hlen1
              omega
            exact IsUtf8.two h2.1 h2.2 hv.1 (ih t2 hlen2 hv.2)
          · simp only [if_neg h2] at hv
            rcases t2 with _ | ⟨c3, t3⟩
            · simp at hv
            · by_cases h3 : 0xE0 ≤ c1 ∧ c1 ≤ 0xEF
              · simp only [if_pos h3] at hv
                rw [Bool.and_eq_true, Bool.and_eq_true] at hv
                have hlen3 : t3.length ≤ n := by
                  simp only [List.length_cons] at hlen1
                  omega
                exact IsUtf8.three h3.1 h3.2 hv.1.1 hv.1.2 (ih t3 hlen3 hv.2)
              · simp only [if_neg h3] at hv
                rcases t3 with _ | ⟨c4, t4⟩
                · simp at hv
                · by_cases h4 : 0xF0 ≤ c1 ∧ c1 ≤ 0xF4
                  · simp only [if_pos h4] at hv
                    rw [Bool.and_eq_true, Bool.and_eq_true,
                      Bool.and_eq_true] at hv
                    have hlen4 : t4.length ≤ n := by
                      simp only [List.length_cons] at hlen1
                      omega
                    exact IsUtf8.four h4.1 h4.2 hv.1.1.1 hv.1.1.2 hv.1.2
                      (ih t4 hlen4 hv.2)
                  · simp only [if_neg h4] at hv
                    simp at hv

/-- A well-formed UTF-8 decomposition is accepted by the validator. -/
theorem utf8Valid_of_IsUtf8 {l : List Nat} (h : IsUtf8 l) :
    utf8Valid l = true := by
  induction h with
  | nil => rfl
  | @one c r hc _ ih =>
    rw [utf8Valid.eq_def]
    simp only [if_pos hc]
    exact ih
  | @two c1 c2 r h1 h2 hc _ ih =>
    rw [utf8Valid.eq_def]
    simp only [if_neg (by omega : ¬ (c1 ≤ 0x7F)), if_pos (And.intro h1 h2)]
    rw [hc, ih]
    rfl
  | @three c1 c2 c3 r h1 h2 hl hc _ ih =>
    rw [utf8Valid.eq_def]
    simp only [if_neg (by omega : ¬ (c1 ≤ 0x7F)),
      if_neg (by omega : ¬ (0xC2 ≤ c1 ∧ c1 ≤ 0xDF)),
      if_pos (And.intro h1 h2)]
    rw [hl, hc, ih]
    rfl
  | @four c1 c2 c3 c4 r h1 h2 hl hc3 hc4 _ ih =>
    rw [utf8Valid.eq_def]
    simp only [if_neg (by omega : ¬ (c1 ≤ 0x7F)),
      if_neg (by omega : ¬ (0xC2 ≤ c1 ∧ c1 ≤ 0xDF)),
      if_neg (by omega : ¬ (0xE0 ≤ c1 ∧ c1 ≤ 0xEF)),
      if_pos (And.intro h1 h2)]
    rw [hl, hc3, hc4, ih]
    rfl


/-- The validator and the declarative decomposition agree. -/
theorem utf8Valid_iff_IsUtf8 (l : List Nat) : utf8Valid l = true ↔ IsUtf8 l :=
  ⟨isUtf8_of_utf8Valid_aux l.length l (Nat.le_refl _), utf8Valid_of_IsUtf8⟩

/-- Absorption at the bit level: a union contains its left operand. -/
theorem nat_or_and_absorb (a b : Nat) : (a ||| b) &&& a = a := by
  apply Nat.eq_of_testBit_eq
  intro i
  simp only [Nat.testBit_and, Nat.testBit_or]
  cases h : a.testBit i <;> simp [h]

/-- Monotonicity at the bit level: enlarging a union preserves containment. -/
theorem nat_and_union_left {x r f : Nat} (h : r &&& f = f) :
    (x ||| r) &&& f = f := by
  apply Nat.eq_of_testBit_eq
  intro i
  have hb := congrArg (fun t => t.testBit i) h
  simp only [Nat.testBit_and, Nat.testBit_or] at hb ⊢
  cases hf : f.testBit i
  · simp [hf]
  · simp only [hf, Bool.and_true] at hb
    simp [hf, hb]

/-- Any union of chosen flags contains every chosen flag. -/
theorem Extension.contains_unionAll {s : List Extension} {f : Extension}
    (hf : f ∈ s) : (Extension.unionAll s).contains f = true := by
  induction s with
  | nil => cases hf
  | cons x xs ih =>
    rcases List.mem_cons.mp hf with h | h
    · subst h
      show (Extension.union f (Extension.unionAll xs)).contains f = true
      simp only [Extension.contains, Extension.union, beq_iff_eq]
      exact nat_or_and_absorb f.bits (Extension.unionAll xs).bits
    · have hr := ih h
      show (Extension.union x (Extension.unionAll xs)).contains f = true
      simp only [Extension.contains, Extension.union, beq_iff_eq] at hr ⊢
      exact nat_and_union_left hr

/-- The modelled smartypants pass reproduces the five pinned substitution
tests of the test suite (src/tests/smartypants.rs). -/
theorem smartypants_pinned_tests :
    smartypantsBytes (ascii ("What") ++ 39 :: ascii ("s with apostrophes?")) =
      ascii ("What&rsquo;s with apostrophes?") ∧
    smartypantsBytes (34 :: ascii ("Air quotes are obnoxious.") ++ [34]) =
      ascii ("&ldquo;Air quotes are obnoxious.&rdquo;") ∧
    smartypantsBytes (ascii ("One of these days...")) =
      ascii ("One of these days&hellip;") ∧
    smartypantsBytes (ascii ("In five minutes the---")) =
      ascii ("In five minutes the&mdash;") ∧
    smartypantsBytes (ascii ("Non--zero.")) = ascii ("Non&ndash;zero.") := by
  refine ⟨?_, ?_, ?_, ?_, ?_⟩ <;> decide

/-! ## Claim theorems -/

/-- Claim C1: with the default HTML renderer (empty flags, nesting level 0)
and no extensions enabled, a full-document render of the input
`some _emphasis_ required` produces exactly `<p>some <em>emphasis</em>
required</p>` followed by a newline, and an inline render of the same input
produces `some <em>emphasis</em> required` with no paragraph wrapper.
The engine is modelled from the spec. -/
theorem emphasis_scenario_render :
    (documentRender htmlRenderer Extension.empty 16 ()
        (ascii ("some _emphasis_ required"))).2 =
      ascii ("<p>some <em>emphasis</em> required</p>\n") ∧
    (documentRenderInline htmlRenderer Extension.empty 16 ()
        (ascii ("some _emphasis_ required"))).2 =
      ascii ("some <em>emphasis</em> required") := by
  refine ⟨?_, ?_⟩ <;> decide

/-- Claim C2: for every renderer behavior, extension set, maximum nesting
value and input document, each of the four entry points appends the rendered
bytes of the document's contents to the caller-supplied output buffer — the
output buffer's new contents are its previous contents followed by the
rendered bytes, its growth unit and ownership are untouched — and the
`Markdown` document itself is returned unchanged.  The two generations of
the full and inline entry points coincide.  The appending behavior of the
native render call is modelled from the spec. -/
theorem render_entry_points_append_frame (renderer : NativeRenderer)
    (md : Markdown) (output : Buffer) :
    (md.render_into_buffer renderer output).1 = md ∧
    (md.render_into_buffer renderer output).2.data =
      output.data ++
        renderer.fullPass md.extensions md.max_nesting md.contents.data ∧
    (md.render_into_buffer renderer output).2.unit = output.unit ∧
    (md.render_into_buffer renderer output).2.is_owned = output.is_owned ∧
    Render.render_to renderer md output = md.render_into_buffer renderer output ∧
    (md.render_inline_into_buffer renderer output).1 = md ∧
    (md.render_inline_into_buffer renderer output).2.data =
      output.data ++
        renderer.inlinePass md.extensions md.max_nesting md.contents.data ∧
    (md.render_inline_into_buffer renderer output).2.unit = output.unit ∧
    (md.render_inline_into_buffer renderer output).2.is_owned =
      output.is_owned ∧
    Render.render_inline_to renderer md output =
      md.render_inline_into_buffer renderer output :=
  ⟨rfl, rfl, rfl, rfl, rfl, rfl, rfl, rfl, rfl, rfl⟩

/-- Claim C3: the default implementations of the `Render` trait satisfy the
per-class contract: every block-level callback writes nothing to the output
buffer, every span-level callback returns false with the output untouched
(so the engine's fallback emits the original source bytes of the span,
modelled by `spanEmit`), and the low-level `entity` and `normal_text`
callbacks copy their text argument to the output buffer verbatim. -/
theorem render_default_contract :
    (∀ output text lang, RenderDefault.code_block output text lang = output) ∧
    (∀ output content, RenderDefault.quote_block output content = output) ∧
    (∀ output content level, RenderDefault.header output content level = output) ∧
    (∀ output, RenderDefault.horizontal_rule output = output) ∧
    (∀ output content flags, RenderDefault.list output content flags = output) ∧
    (∀ output content flags, RenderDefault.list_item output content flags = output) ∧
    (∀ output content, RenderDefault.paragraph output content = output) ∧
    (∀ output content, RenderDefault.table output content = output) ∧
    (∀ output content, RenderDefault.table_header output content = output) ∧
    (∀ output content, RenderDefault.table_body output content = output) ∧
    (∀ output content, RenderDefault.table_row output content = output) ∧
    (∀ output content flags, RenderDefault.table_cell output content flags = output) ∧
    (∀ output content, RenderDefault.footnotes output content = output) ∧
    (∀ output content num, RenderDefault.footnote_definition output content num = output) ∧
    (∀ output text, RenderDefault.html_block output text = output) ∧
    (∀ output link ty, RenderDefault.autolink output link ty = (output, false)) ∧
    (∀ output text, RenderDefault.code_span output text = (output, false)) ∧
    (∀ output content, RenderDefault.double_emphasis output content = (output, false)) ∧
    (∀ output content, RenderDefault.emphasis output content = (output, false)) ∧
    (∀ output content, RenderDefault.underline output content = (output, false)) ∧
    (∀ output content, RenderDefault.highlight output content = (output, false)) ∧
    (∀ output content, RenderDefault.quote_span output content = (output, false)) ∧
    (∀ output link title alt, RenderDefault.image output link title alt = (output, false)) ∧
    (∀ output, RenderDefault.line_break output = (output, false)) ∧
    (∀ output content link title, RenderDefault.link output content link title = (output, false)) ∧
    (∀ output content, RenderDefault.triple_emphasis output content = (output, false)) ∧
    (∀ output content, RenderDefault.strikethrough output content = (output, false)) ∧
    (∀ output content, RenderDefault.superscript output content = (output, false)) ∧
    (∀ output num, RenderDefault.footnote_reference output num = (output, false)) ∧
    (∀ output text displaymode, RenderDefault.math output text displaymode = (output, false)) ∧
    (∀ output text, RenderDefault.html_span output text = (output, false)) ∧
    (∀ output text, RenderDefault.entity output text =
      { output with data := output.data ++ text.data }) ∧
    (∀ output text, RenderDefault.normal_text output text =
      { output with data := output.data ++ text.data }) ∧
    (∀ source ob, spanEmit (fun b => (b, false)) source ob =
      { ob with data := ob.data ++ source }) :=
  ⟨fun _ _ _ => rfl, fun _ _ => rfl, fun _ _ _ => rfl, fun _ => rfl,
   fun _ _ _ => rfl, fun _ _ _ => rfl, fun _ _ => rfl, fun _ _ => rfl,
   fun _ _ => rfl, fun _ _ => rfl, fun _ _ => rfl, fun _ _ _ => rfl,
   fun _ _ => rfl, fun _ _ _ => rfl, fun _ _ => rfl, fun _ _ _ => rfl,
   fun _ _ => rfl, fun _ _ => rfl, fun _ _ => rfl, fun _ _ => rfl,
   fun _ _ => rfl, fun _ _ => rfl, fun _ _ _ _ => rfl, fun _ => rfl,
   fun _ _ _ _ => rfl, fun _ _ => rfl, fun _ _ => rfl, fun _ _ => rfl,
   fun _ _ => rfl, fun _ _ _ => rfl, fun _ _ => rfl, fun _ _ => rfl,
   fun _ _ => rfl, fun _ _ => rfl⟩

/-- Claim C4 counterexample: the extension flag set does not consist of
exactly the thirteen features listed by the spec — the source names a
fourteenth single-bit flag, `SUPERSCRIPT`, absent from the spec's list. -/
theorem extension_flags_not_thirteen :
    Extension.allFlags.length = 14 ∧
    Extension.SUPERSCRIPT ∈ Extension.allFlags ∧
    Extension.SUPERSCRIPT ∉ Extension.specListedFlags ∧
    Extension.specListedFlags.length = 13 := by
  refine ⟨rfl, ?_, ?_, rfl⟩ <;> decide

/-- Claim C4 (amended): the extension flag set consists of exactly fourteen
named independent features — the spec's thirteen plus superscript — each a
distinct single bit of the bitset (bit 10 is unused), and no extension
combination is invalid: any union of flags is a well-formed extension set
containing each chosen flag. -/
theorem extension_flags_fourteen_single_bits :
    Extension.allFlags.length = 14 ∧
    Extension.allFlags.map Extension.bits =
      [1, 2, 4, 8, 16, 32, 64, 128, 256, 512, 2048, 4096, 8192, 16384] ∧
    Extension.allFlags.Pairwise (· ≠ ·) ∧
    (∀ e ∈ Extension.allFlags, ∃ k, e.bits = 2 ^ k) ∧
    (∀ s : List Extension, ∀ f ∈ s,
      (Extension.unionAll s).contains f = true) := by
  refine ⟨rfl, by decide, by decide, ?_, ?_⟩
  · intro e he
    fin_cases he
    · exact ⟨0, rfl⟩
    · exact ⟨1, rfl⟩
    · exact ⟨2, rfl⟩
    · exact ⟨3, rfl⟩
    · exact ⟨4, rfl⟩
    · exact ⟨5, rfl⟩
    · exact ⟨6, rfl⟩
    · exact ⟨7, rfl⟩
    · exact ⟨8, rfl⟩
    · exact ⟨9, rfl⟩
    · exact ⟨11, rfl⟩
    · exact ⟨12, rfl⟩
    · exact ⟨13, rfl⟩
    · exact ⟨14, rfl⟩
  · intro s f hf
    exact Extension.contains_unionAll hf

/-- Witness for the amended C4 theorem at concrete inputs. -/
theorem extension_flags_fourteen_single_bits_witness :
    (∃ k, Extension.SUPERSCRIPT.bits = 2 ^ k) ∧
    (Extension.unionAll [Extension.TABLES, Extension.MATH]).contains
      Extension.MATH = true :=
  ⟨extension_flags_fourteen_single_bits.2.2.2.1 Extension.SUPERSCRIPT
     (by decide),
   extension_flags_fourteen_single_bits.2.2.2.2
     [Extension.TABLES, Extension.MATH] Extension.MATH (by decide)⟩

/-- Claim C5: rendering the test document whose headers occur at levels
1,2,2,1 with the table-of-contents renderer at nesting level 16 yields one
top-level list with two entries, the first containing a nested list with two
sub-entries for the two level-2 headers, with anchors `#toc_0` through
`#toc_3` assigned in document order by the zero-based header counter.  The
TOC renderer and engine are modelled from the spec; the output matches the
pinned bytes of `test_render_toc` exactly. -/
theorem toc_scenario_render :
    (documentRender (tocRenderer 16) Extension.empty 16
        { headerCount := 0, currentLevel := 0 }
        (ascii ("# first\n\nthis is some paragraph\n\n## sub section\n\nnote the following\n\n## another sub section\n\nheh\n\n# conclusion\n\nthis"))).2 =
      ascii ("<ul>\n<li>\n<a href=\"#toc_0\">first</a>\n<ul>\n<li>\n<a href=\"#toc_1\">sub section</a>\n</li>\n<li>\n<a href=\"#toc_2\">another sub section</a>\n</li>\n</ul>\n</li>\n<li>\n<a href=\"#toc_3\">conclusion</a>\n</li>\n</ul>\n") := by
  decide

/-- Claim C6: `Buffer::to_str` returns `Ok` with the decoded string exactly
when the buffer's byte contents are valid UTF-8 (stated against the
declarative decomposition predicate), returns an error value otherwise, and
in both cases leaves the buffer unchanged, so the raw bytes remain
available. -/
theorem to_str_utf8_contract (b : Buffer) :
    ((b.to_str).1 = Except.ok b.data ↔ IsUtf8 b.data) ∧
    ((b.to_str).1 = Except.error () ↔ ¬ IsUtf8 b.data) ∧
    (b.to_str).2 = b := by
  by_cases h : utf8Valid b.data = true
  · have hu : IsUtf8 b.data := (utf8Valid_iff_IsUtf8 b.data).mp h
    refine ⟨?_, ?_, rfl⟩ <;> simp [Buffer.to_str, h, hu]
  · have hn : ¬ IsUtf8 b.data :=
      fun hh => h ((utf8Valid_iff_IsUtf8 b.data).mpr hh)
    refine ⟨?_, ?_, rfl⟩ <;> simp [Buffer.to_str, h, hn]

/-- Claim C7: cloning a buffer produces a freshly allocated owning buffer
with equal byte contents and the same growth unit, leaving the original
unchanged (`clone` takes the original by shared reference and only reads
it). -/
theorem clone_fresh_copy (b : Buffer) :
    b.clone.data = b.data ∧ b.clone.unit = b.unit ∧
    b.clone.is_owned = true := by
  refine ⟨?_, rfl, rfl⟩
  simp [Buffer.clone, Buffer.new, Buffer.pipe]

/-- Claim C8: the smartypants pass (modelled from the spec) is a single-pass
substitution that is not idempotent: on the buffer holding the five bytes of
a double quote, a letter, a space, a double quote and a letter, the second
quote is left literal by the first pass (its quoting state is open and the
next byte is not a boundary) but substituted by a second pass, so re-running
smartypants on its own output double-substitutes. -/
theorem smartypants_not_idempotent :
    ∃ x : Buffer,
      smartypants (smartypants x (Buffer.new 64)) (Buffer.new 64) ≠
        smartypants x (Buffer.new 64) :=
  ⟨{ data := [34, 97, 32, 34, 98], unit := 64, is_owned := true }, by decide⟩

/-- Claim C9 (amended): `from_raw` and `from_raw_mut` return `None` exactly
when the pointer is null; a buffer constructed by either is non-owning and
dropping it never frees the underlying storage; dropping a buffer created by
`Buffer::new` with a nonzero growth unit frees its storage (with growth unit
zero the `Drop` implementation skips the free). -/
theorem from_raw_null_and_drop_ownership :
    (∀ p, (Buffer.from_raw p = none ↔ p = RawBuf.null) ∧
          (Buffer.from_raw_mut p = none ↔ p = RawBuf.null)) ∧
    (∀ p b, Buffer.from_raw p = some b →
      b.is_owned = false ∧ b.dropFrees = false) ∧
    (∀ p b, Buffer.from_raw_mut p = some b →
      b.is_owned = false ∧ b.dropFrees = false) ∧
    (∀ size, size ≠ 0 → (Buffer.new size).dropFrees = true) := by
  refine ⟨?_, ?_, ?_, ?_⟩
  · intro p
    cases p <;> simp [Buffer.from_raw, Buffer.from_raw_mut]
  · intro p b h
    cases p with
    | null => exact absurd h (by simp [Buffer.from_raw])
    | ptr hb =>
      obtain rfl := (Option.some.inj h).symm
      exact ⟨rfl, rfl⟩
  · intro p b h
    cases p with
    | null => exact absurd h (by simp [Buffer.from_raw_mut])
    | ptr hb =>
      obtain rfl := (Option.some.inj h).symm
      exact ⟨rfl, rfl⟩
  · intro size h
    simp [Buffer.new, Buffer.dropFrees, h]

/-- Claim C9 counterexample to the original statement: `Buffer::new(0)`
creates an owning buffer whose growth unit is zero, and the `Drop`
implementation's `unit != 0` guard then skips `hoedown_buffer_free`, so not
every buffer created by `Buffer::new` is freed on drop. -/
theorem buffer_new_zero_unit_drop_leaks :
    (Buffer.new 0).is_owned = true ∧ (Buffer.new 0).dropFrees = false := by
  exact ⟨rfl, rfl⟩

/-- Witness for the amended C9 theorem at concrete inputs. -/
theorem from_raw_null_and_drop_ownership_witness :
    (({ data := [7], unit := 64, is_owned := false } : Buffer).is_owned = false ∧
     ({ data := [7], unit := 64, is_owned := false } : Buffer).dropFrees = false) ∧
    (Buffer.new 64).dropFrees = true :=
  ⟨from_raw_null_and_drop_ownership.2.1 (RawBuf.ptr ⟨[7], 64⟩)
     { data := [7], unit := 64, is_owned := false } rfl,
   from_raw_null_and_drop_ownership.2.2.2 64 (by decide)⟩

/-- Claim C10: for a `Wrapper` implementor that overrides none of the
trait's provided methods, the `Render` implementation generated by the
`wrap!` macro is observationally equivalent to the wrapped base renderer:
with the base state accessed through the identity accessor, every generated
callback delegates its arguments unchanged to the base renderer and returns
the base renderer's result, so the generated renderer is the base
renderer. -/
theorem wrap_identity_equiv {σ : Type} (base : Renderer σ) :
    wrapRender (BaseLens.idLens σ) base = base :=
  rfl
